import Mathlib

/-!
Verification of the balancete parsing and validation core
(`backend/parsers/value_converter.py`, `backend/parsers/balancete_parser.py`,
`backend/validators/hierarchy_validator.py`).

Modelling conventions:
* Python strings are Lean `String`s; the character-level operations
  (`strip`, `replace`, `re.sub`, slicing) are modelled on their `List Char`.
* Monetary floats are modelled as exact rationals `ℚ`; the 0.02 cent
  tolerance becomes `1/50 : ℚ`.
* Raised exceptions become `Except` errors; a typed error constructor per
  `raise` site.
* Spreadsheet cells are `Option String` (a `None` cell or its `str()` text).
-/

-- Batteries marks the rational operations irreducible, which blocks `decide`
-- on concrete ledgers; their definitions are kernel-reducible, so restore
-- default reducibility for this development.
attribute [local semireducible] Rat.add Rat.mul Rat.sub Rat.inv

deriving instance DecidableEq for Except

namespace Balancete

/-! ### String helpers (Python `str` methods used by the parsers) -/

/-- Python `str.strip()` whitespace test (ASCII whitespace; the parser inputs
contain no exotic unicode spaces). -/
def isPySpace (c : Char) : Bool :=
  c == ' ' || c == '\t' || c == '\n' || c == '\r' ||
  c == Char.ofNat 11 || c == Char.ofNat 12

/-- Python `str.strip()` on a character list. -/
def pyStripList (l : List Char) : List Char :=
  ((l.dropWhile isPySpace).reverse.dropWhile isPySpace).reverse

/-- Python `str.strip()`. -/
def pyStrip (s : String) : String := String.mk (pyStripList s.data)

/-- Python `str.lower()` (ASCII). -/
def pyLower (s : String) : String := String.mk (s.data.map Char.toLower)

/-- Python `str.upper()` (ASCII). -/
def pyUpper (s : String) : String := String.mk (s.data.map Char.toUpper)

/-- Python `s.startswith(pre)` / pandas `.str.startswith`, character-based. -/
def pyStartswith (pre s : String) : Bool := pre.data.isPrefixOf s.data

/-- Python `needle in hay` substring test on character lists. -/
def listContainsSub (needle hay : List Char) : Bool :=
  hay.tails.any (fun t => needle.isPrefixOf t)

/-- Python `s.split(sep)` for a one-character separator, accumulator form. -/
def splitOnCharAux (sep : Char) : List Char → List Char → List (List Char)
  | [], acc => [acc.reverse]
  | c :: cs, acc =>
    if c == sep then acc.reverse :: splitOnCharAux sep cs []
    else splitOnCharAux sep cs (c :: acc)

/-- Python `s.split(sep)` for a one-character separator. -/
def splitOnChar (sep : Char) (l : List Char) : List (List Char) :=
  splitOnCharAux sep l []

/-! ### Python `float()` on cleaned numeric strings -/

/-- Numeric value of an ASCII digit character. -/
def digitVal (c : Char) : ℕ := c.toNat - 48

/-- Value of a big-endian list of decimal digit characters. -/
def digitsValBE (l : List Char) : ℕ := l.foldl (fun a c => 10 * a + digitVal c) 0

/-- Python `float(s)` on an unsigned body: decimal digits with at most one
dot and at least one digit. -/
def pyFloatBody (l : List Char) : Option ℚ :=
  match splitOnChar '.' l with
  | [a] =>
    if a ≠ [] ∧ a.all Char.isDigit then some (digitsValBE a) else Option.none
  | [a, b] =>
    if (a ++ b) ≠ [] ∧ (a ++ b).all Char.isDigit then
      some ((digitsValBE a : ℚ) + (digitsValBE b : ℚ) / (10 : ℚ) ^ b.length)
    else Option.none
  | _ => Option.none

/-- Models Python `float(s)` for the cleaned strings that reach it inside
`parse_brazilian_value`: an optional leading minus sign and an unsigned body.
Exponent, `inf` and `nan` spellings never survive the cleaning step
(`re.sub` removes every letter), so they are not modelled. -/
def pyFloatOfChars (l : List Char) : Option ℚ :=
  if l.head? == some '-' then (pyFloatBody l.tail).map (fun q => -q)
  else pyFloatBody l

/-! ### `value_converter.parse_brazilian_value` -/

/-- A Python value handed to `parse_brazilian_value`: `None`, a float `NaN`,
a non-string numeric value, or a string. -/
inductive PValue where
  | pynone
  | pynan
  | num (q : ℚ)
  | str (s : String)
deriving DecidableEq, Repr

/-- Lines 56-63 of `value_converter.py`: detect and strip a trailing
case-insensitive D or C indicator, re-stripping whitespace afterwards.
Returns the indicator and the remaining characters. -/
def stripIndicator (cleaned : List Char) : String × List Char :=
  let lastU := (cleaned.getLast?.map Char.toUpper).getD ' '
  if lastU == 'D' then ("D", pyStripList cleaned.dropLast)
  else if lastU == 'C' then ("C", pyStripList cleaned.dropLast)
  else ("", cleaned)

/-- Lines 65-72 of `value_converter.py`: remove dots (thousands separators),
turn the decimal comma into a dot, and drop every character other than
digits, dot and minus (`re.sub(r"[^\d.\-]", "", ...)`). -/
def removeDotsCommaChain (l : List Char) : List Char :=
  ((l.filter (fun c => !(c == '.'))).map
      (fun c => if c == ',' then '.' else c)).filter
    (fun c => c.isDigit || c == '.' || c == '-')

/-- `value_converter.parse_brazilian_value`: convert a Brazilian-format
monetary value to `(magnitude, indicator)`. Total by construction — every
`raise`-free Python path is a returned pair. -/
def parse_brazilian_value : PValue → ℚ × String
  | PValue.pynone => (0, "")
  | PValue.pynan => (0, "")
  | PValue.num q => (q, "")
  | PValue.str s =>
    let cleaned := pyStripList s.data
    if cleaned.isEmpty then (0, "")
    else
      let pr := stripIndicator cleaned
      let rest := removeDotsCommaChain pr.2
      if rest.isEmpty then (0, "")
      else
        match pyFloatOfChars rest with
        | some v => (v, pr.1)
        | Option.none => (0, "")

/-! ### `value_converter.apply_sign` -/

/-- `value_converter.apply_sign`: sign a magnitude according to the D/C
indicator; an out-of-range accounting group raises `ValueError` — but only
after the empty-indicator early return. -/
def apply_sign (value : ℚ) (indicator : String) (account_group : ℤ) :
    Except String ℚ :=
  if indicator = "" then Except.ok 0
  else
    let ind := pyStrip (pyUpper indicator)
    if account_group = 1 ∨ account_group = 2 ∨ account_group = 3 ∨
        account_group = 4 then
      if ind = "D" then Except.ok |value|
      else if ind = "C" then Except.ok (-|value|)
      else Except.ok 0
    else Except.error "Grupo contábil inválido. Esperado: 1, 2, 3 ou 4."

/-! ### `balancete_parser.py` -/

/-- A spreadsheet cell: `None` or its `str()` text. Numeric cells are
modelled by the text `str()` gives them, which is all the parser ever
looks at. -/
abbrev Cell := Option String

/-- A sheet row as handed to the parsing loop. -/
abbrev SheetRow := List Cell

/-- An input spreadsheet whose 3-row preamble was already consumed by
`extract_header`: the extracted reference month plus the raw sheet rows
from row index 3 onward, in file order. -/
structure XFile where
  mes_referencia : String
  sheetRows : List SheetRow
deriving DecidableEq, Repr

/-- Lines 74-77 and 101-104 of `balancete_parser.py`: the sentinel test
`"total geral" in cell0.lower()` where `cell0` is column 0's stripped text
when the row is nonempty and the cell truthy, else the empty string. -/
def isTotalGeralRow (row : SheetRow) : Bool :=
  let cell0 : String :=
    match row with
    | some s :: _ => if s != "" then pyStrip s else ""
    | _ => ""
  listContainsSub "total geral".data (pyLower cell0).data

/-- The reading loop shared by `_read_xls_data` and `_read_xlsx_data`:
keep at most 7 columns of each row and stop (exclusive) at the first
"Total Geral" row. -/
def readRowsAux : List SheetRow → List SheetRow
  | [] => []
  | r :: rs =>
    let row := r.take 7
    if isTotalGeralRow row then [] else row :: readRowsAux rs

/-- `balancete_parser._read_data_rows` on the post-preamble rows. -/
def _read_data_rows (f : XFile) : List SheetRow := readRowsAux f.sheetRows

/-- `balancete_parser._determine_account_level`: number of dot-separated
parts of the account code, 0 for an empty code. -/
def _determine_account_level (codigo : String) : ℕ :=
  if codigo = "" then 0 else (splitOnChar '.' codigo.data).length

/-- `balancete_parser._GROUP_MAP`: leading digit of the account code to
(group name, group number). -/
def _GROUP_MAP : List (Char × String × ℤ) :=
  [('1', ("ATIVO", 1)), ('2', ("PASSIVO", 2)), ('3', ("RECEITA", 3)),
   ('4', ("DESPESA", 4)), ('5', ("DESPESA", 4))]

/-- Typed images of the `raise` sites inside `parse_balancete` and its
helpers. -/
inductive ParseError where
  | emptyCode
  | unknownAccountGroup (codigo : String)
  | emptyLedger
  | applySignError (msg : String)
deriving DecidableEq, Repr

/-- `balancete_parser._get_account_group`: look the code's first character
up in `_GROUP_MAP`; empty code and unmapped first character raise. -/
def _get_account_group (codigo : String) : Except ParseError (String × ℤ) :=
  match codigo.data with
  | [] => Except.error ParseError.emptyCode
  | c :: _ =>
    match _GROUP_MAP.find? (fun p => p.1 == c) with
    | some p => Except.ok p.2
    | Option.none => Except.error (ParseError.unknownAccountGroup codigo)

/-- One row of the output DataFrame of `parse_balancete`. -/
structure Registro where
  codigo_conta : String
  titulo_conta : String
  red : Option ℤ
  nivel : ℤ
  tipo : String
  grupo : String
  grupo_num : ℤ
  saldo_anterior : ℚ
  debitos : ℚ
  creditos : ℚ
  saldo_atual : ℚ
  indicador_dc : String
  periodo : String
deriving DecidableEq, Repr, Inhabited

/-- Python `row[k] if len(row) > k and row[k] is not None else dflt`,
with the non-`None` cell passed through `str()`. -/
def strCellAt (row : SheetRow) (k : ℕ) (dflt : String) : String :=
  match (row.drop k).headD Option.none with
  | some s => s
  | Option.none => dflt

/-- Python `int(float(s))`: truncation toward zero of an exact rational. -/
def pyTruncToInt (q : ℚ) : ℤ := if q < 0 then -(⌊-q⌋) else ⌊q⌋

/-- Lines 212-219 of `balancete_parser.py`: lenient parse of the optional
reduced code; any failure becomes `None`, never an error. -/
def parseRed (cell : Cell) : Option ℤ :=
  match cell with
  | Option.none => Option.none
  | some s =>
    if pyStrip s = "" then Option.none
    else
      match pyFloatOfChars (pyStripList s.data) with
      | some q => some (pyTruncToInt q)
      | Option.none => Option.none

/-- The body of the per-row loop of `parse_balancete` (lines 202-258):
either a skipped row (`ok none`), a record with `tipo` still unset
(`ok (some r)`), or a raised error. -/
def buildRecord (periodo : String) (row : SheetRow) :
    Except ParseError (Option Registro) :=
  let codigo_conta := pyStrip (strCellAt row 0 "")
  if codigo_conta = "" then Except.ok Option.none
  else do
    let titulo_conta := pyStrip (strCellAt row 2 "")
    let red := parseRed ((row.drop 1).headD Option.none)
    let nivel : ℤ := (_determine_account_level codigo_conta : ℤ)
    let gr ← _get_account_group codigo_conta
    let saldo_ant := parse_brazilian_value (PValue.str (strCellAt row 3 "0,00"))
    let debitos := parse_brazilian_value (PValue.str (strCellAt row 4 "0,00"))
    let creditos := parse_brazilian_value (PValue.str (strCellAt row 5 "0,00"))
    let saldo_atu := parse_brazilian_value (PValue.str (strCellAt row 6 "0,00"))
    let saldo_anterior ←
      (apply_sign saldo_ant.1 saldo_ant.2 gr.2).mapError ParseError.applySignError
    let saldo_atual ←
      (apply_sign saldo_atu.1 saldo_atu.2 gr.2).mapError ParseError.applySignError
    Except.ok (some
      { codigo_conta := codigo_conta
        titulo_conta := titulo_conta
        red := red
        nivel := nivel
        tipo := ""
        grupo := gr.1
        grupo_num := gr.2
        saldo_anterior := saldo_anterior
        debitos := |debitos.1|
        creditos := |creditos.1|
        saldo_atual := saldo_atual
        indicador_dc := saldo_atu.2
        periodo := periodo })

/-- The whole step-3 loop of `parse_balancete`: rows in order, skipped rows
dropped, the first raising row aborting everything. -/
def buildRecords (periodo : String) : List SheetRow → Except ParseError (List Registro)
  | [] => Except.ok []
  | row :: rest => do
    let r? ← buildRecord periodo row
    let rs ← buildRecords periodo rest
    match r? with
    | some r => Except.ok (r :: rs)
    | Option.none => Except.ok rs

/-- Step 4 of `parse_balancete` (lines 260-270): a record is `Macro` when
the immediately following record has a strictly greater level, otherwise
`Último Nível`; the last record is always `Último Nível`. -/
def assignTipos : List Registro → List Registro
  | [] => []
  | [r] => [{ r with tipo := "Último Nível" }]
  | r :: r2 :: rest =>
    { r with tipo := if r2.nivel > r.nivel then "Macro" else "Último Nível" }
      :: assignTipos (r2 :: rest)

/-- Column names of the DataFrame built from a nonempty record list. -/
def standardCols : List String :=
  ["codigo_conta", "titulo_conta", "red", "nivel", "tipo", "grupo",
   "grupo_num", "saldo_anterior", "debitos", "creditos", "saldo_atual",
   "indicador_dc", "periodo"]

/-- A pandas DataFrame: its column list plus its typed rows. -/
structure DataFrame where
  cols : List String
  rows : List Registro
deriving DecidableEq, Repr, Inhabited

/-- `pd.DataFrame(records)`: note that an empty record list yields a
DataFrame with no columns at all. -/
def mkDataFrame (records : List Registro) : DataFrame :=
  { cols := if records.isEmpty then [] else standardCols, rows := records }

/-- `balancete_parser.parse_balancete`: the header is abstracted to its
`mes_referencia` field, the only one the data pass reads. -/
def parse_balancete (f : XFile) : Except ParseError (String × DataFrame) :=
  let raw_rows := _read_data_rows f
  if raw_rows.isEmpty then Except.error ParseError.emptyLedger
  else
    match buildRecords f.mes_referencia raw_rows with
    | Except.error e => Except.error e
    | Except.ok records =>
      Except.ok (f.mes_referencia, mkDataFrame (assignTipos records))

/-! ### `hierarchy_validator.py` -/

/-- Tolerance of R$0.02 for cent rounding (`_TOLERANCE` in
`hierarchy_validator.py`). -/
def _TOLERANCE : ℚ := 2 / 100

/-- Python `round(x, 2)` modelled on exact rationals: round half to even at
two decimal places. (On binary floats the tie case is approximate; no
verified claim depends on the rounded display values.) -/
def round2 (q : ℚ) : ℚ :=
  let x := q * 100
  let n : ℤ := ⌊x⌋
  let r : ℚ := x - (n : ℚ)
  let m : ℤ :=
    if r > 1 / 2 then n + 1
    else if r < 1 / 2 then n
    else if n % 2 = 0 then n else n + 1
  (m : ℚ) / 100

/-- Status of a hierarchy validation finding. -/
inductive Status where
  | OK
  | WARNING
  | ERROR
deriving DecidableEq, Repr

/-- The three message templates of `validate_hierarchy`, with the rounded
numbers they interpolate (string formatting abstracted away). -/
inductive Mensagem where
  | hierarquiaIrregularBate (soma_filhos soma_leaf : ℚ)
  | hierarquiaIrregularNaoBate (soma_filhos soma_leaf saldo_pai diferenca : ℚ)
  | saldoDifere (saldo_pai soma_filhos diferenca : ℚ)
deriving DecidableEq, Repr

/-- One result dict of `validate_hierarchy`. -/
structure Finding where
  conta_pai : String
  titulo_pai : String
  saldo_pai : ℚ
  soma_filhos : ℚ
  diferenca : ℚ
  filhos : List String
  status : Status
  mensagem : Option Mensagem
deriving DecidableEq, Repr

/-- The `ValueError` raised by `_validate_required_columns`. -/
inductive ValidationError where
  | missingColumns (missing : List String)
deriving DecidableEq, Repr

/-- `hierarchy_validator._validate_required_columns`. -/
def _validate_required_columns (df : DataFrame) (required : List String) :
    Except ValidationError Unit :=
  let missing := required.filter (fun c => !(df.cols.contains c))
  if missing.isEmpty then Except.ok ()
  else Except.error (ValidationError.missingColumns missing)

/-- The body of `validate_hierarchy`'s per-Macro loop (lines 56-129 of
`hierarchy_validator.py`). -/
def macroFinding (df : DataFrame) (row : Registro) : Finding :=
  let codigo_pai := row.codigo_conta
  let saldo_pai := row.saldo_atual
  let nivel_filho_direto := row.nivel + 1
  let pref := codigo_pai ++ "."
  let filhos_diretos := df.rows.filter (fun r =>
    pyStartswith pref r.codigo_conta && r.nivel == nivel_filho_direto)
  let filhos_codes := filhos_diretos.map (fun r => r.codigo_conta)
  let soma_filhos := (filhos_diretos.map (fun r => r.saldo_atual)).sum
  let diferenca := |saldo_pai - soma_filhos|
  let base : Finding :=
    { conta_pai := codigo_pai
      titulo_pai := row.titulo_conta
      saldo_pai := round2 saldo_pai
      soma_filhos := round2 soma_filhos
      diferenca := round2 diferenca
      filhos := filhos_codes
      status := Status.OK
      mensagem := Option.none }
  if diferenca ≤ _TOLERANCE then base
  else
    let filhos_skip := df.rows.filter (fun r =>
      pyStartswith pref r.codigo_conta && decide (r.nivel > nivel_filho_direto))
    if !filhos_skip.isEmpty then
      let all_descendants_leaf := df.rows.filter (fun r =>
        pyStartswith pref r.codigo_conta && r.tipo == "Último Nível")
      let soma_leaf := (all_descendants_leaf.map (fun r => r.saldo_atual)).sum
      let diff_leaf := |saldo_pai - soma_leaf|
      if diff_leaf ≤ _TOLERANCE then
        { base with
          status := Status.WARNING
          mensagem := some
            (Mensagem.hierarquiaIrregularBate (round2 soma_filhos) (round2 soma_leaf)) }
      else
        { base with
          status := Status.WARNING
          mensagem := some
            (Mensagem.hierarquiaIrregularNaoBate (round2 soma_filhos)
              (round2 soma_leaf) (round2 saldo_pai) (round2 diferenca)) }
    else
      { base with
        status := Status.ERROR
        mensagem := some
          (Mensagem.saldoDifere (round2 saldo_pai) (round2 soma_filhos)
            (round2 diferenca)) }

/-- Required columns of `validate_hierarchy`. -/
def hierarchyRequiredCols : List String :=
  ["codigo_conta", "titulo_conta", "nivel", "tipo", "saldo_atual"]

/-- `hierarchy_validator.validate_hierarchy`: one finding per Macro row, in
DataFrame row order. -/
def validate_hierarchy (df : DataFrame) : Except ValidationError (List Finding) :=
  match _validate_required_columns df hierarchyRequiredCols with
  | Except.error e => Except.error e
  | Except.ok _ =>
    Except.ok ((df.rows.filter (fun r => r.tipo == "Macro")).map (macroFinding df))

/-- The result dict of `validate_balance_sheet`. -/
structure BPResult where
  ativo_total : ℚ
  passivo_pl_total : ℚ
  diferenca_bp : ℚ
  resultado_exercicio : ℚ
  receita_total : ℚ
  despesa_total : ℚ
  ativo_decomposicao : Bool
  passivo_decomposicao : Bool
  bp_equilibrio : Bool
deriving DecidableEq, Repr

/-- The inner `_get_saldo` of `validate_balance_sheet`: signed balance of
the first row whose code matches exactly, zero when absent. -/
def _get_saldo (df : DataFrame) (codigo : String) : ℚ :=
  match df.rows.find? (fun r => r.codigo_conta == codigo) with
  | some r => r.saldo_atual
  | Option.none => 0

/-- `hierarchy_validator.validate_balance_sheet`. -/
def validate_balance_sheet (df : DataFrame) : Except ValidationError BPResult :=
  match _validate_required_columns df ["codigo_conta", "saldo_atual"] with
  | Except.error e => Except.error e
  | Except.ok _ =>
    let ativo_total := _get_saldo df "1"
    let passivo_pl_total := _get_saldo df "2"
    let receita_total := _get_saldo df "3"
    let despesa_total := _get_saldo df "4"
    let ativo_circ := _get_saldo df "1.01"
    let ativo_nao_circ := _get_saldo df "1.02"
    let passivo_circ := _get_saldo df "2.01"
    let passivo_nao_circ := _get_saldo df "2.02"
    let patrimonio_liq := _get_saldo df "2.03"
    let soma_ativo := ativo_circ + ativo_nao_circ
    let soma_passivo := passivo_circ + passivo_nao_circ + patrimonio_liq
    let resultado_exercicio := receita_total + despesa_total
    let bp_total := ativo_total + passivo_pl_total + resultado_exercicio
    Except.ok
      { ativo_total := round2 ativo_total
        passivo_pl_total := round2 passivo_pl_total
        diferenca_bp := round2 bp_total
        resultado_exercicio := round2 resultado_exercicio
        receita_total := round2 receita_total
        despesa_total := round2 despesa_total
        ativo_decomposicao := decide (|ativo_total - soma_ativo| ≤ _TOLERANCE)
        passivo_decomposicao := decide (|passivo_pl_total - soma_passivo| ≤ _TOLERANCE)
        bp_equilibrio := decide (|bp_total| ≤ _TOLERANCE) }

/-! ### The spec-side Brazilian formatter (for the round-trip claim) -/

/-- Little-endian decimal digits of `n`, driven by structural fuel (the
value reaches 0 long before the fuel does when started at `n`). -/
def natDigitsLE : ℕ → ℕ → List ℕ
  | 0, _ => []
  | _ + 1, 0 => []
  | fuel + 1, n + 1 => ((n + 1) % 10) :: natDigitsLE fuel ((n + 1) / 10)

/-- The ASCII character of a decimal digit. -/
def digitChar (d : ℕ) : Char := Char.ofNat (48 + d)

/-- Big-endian decimal digit characters of `n` ("0" for zero, as Python's
`str`). -/
def natToDecChars (n : ℕ) : List Char :=
  if n = 0 then [digitChar 0] else ((natDigitsLE n n).map digitChar).reverse

/-- Value of a little-endian digit list. -/
def valLE : List ℕ → ℕ
  | [] => 0
  | d :: ds => d + 10 * valLE ds

/-- Insert a separator dot after every complete group of three characters
of the little-endian (reversed) integer part. -/
def group3LE : List Char → List Char
  | [] => []
  | [a] => [a]
  | [a, b] => [a, b]
  | [a, b, c] => [a, b, c]
  | a :: b :: c :: d :: rest => a :: b :: c :: '.' :: group3LE (d :: rest)

/-- Modelled from the spec's words (§8 round-trip property): format the
amount of `cents/100` in the Brazilian convention — dot as thousands
separator, comma as decimal separator, two decimal places. -/
def formatBrazilianSpec (cents : ℕ) : String :=
  String.mk ((group3LE (natToDecChars (cents / 100)).reverse).reverse ++
    [','] ++ [digitChar (cents % 100 / 10), digitChar (cents % 100 % 10)])

/-! ### Concrete fixtures used by sanity checks and witnesses -/

/-- A 7-column sheet row with an empty Red cell. -/
def exRow (c t sa d cr s : String) : SheetRow :=
  [some c, Option.none, some t, some sa, some d, some cr, some s]

/-- A small well-formed balancete file. -/
def exFile : XFile :=
  { mes_referencia := "2025-01"
    sheetRows :=
      [exRow "1" "ATIVO" "0,00" "0,00" "0,00" "1.000,00D",
       exRow "1.01" "CIRCULANTE" "0,00" "0,00" "0,00" "600,00D",
       exRow "1.02" "NAO CIRCULANTE" "0,00" "0,00" "0,00" "400,00D",
       exRow "Total Geral" "" "0,00" "0,00" "0,00" "0,00"] }

/-- A ledger row fixture with the fields the validators read. -/
def mkReg (c t : String) (n : ℤ) (tp : String) (s : ℚ) : Registro :=
  { codigo_conta := c, titulo_conta := t, red := Option.none, nivel := n,
    tipo := tp, grupo := "", grupo_num := 1, saldo_anterior := 0,
    debitos := 0, creditos := 0, saldo_atual := s, indicador_dc := "D",
    periodo := "2025-01" }

/-- Fixture: parent 1000 against direct children summing to 900, no deeper
descendants. -/
def dfError : DataFrame :=
  { cols := standardCols
    rows :=
      [mkReg "1" "ATIVO" 1 "Macro" 1000,
       mkReg "1.01" "CIRCULANTE" 2 "Último Nível" 500,
       mkReg "1.02" "NAO CIRCULANTE" 2 "Último Nível" 400] }

/-- Fixture: irregular hierarchy with skipped levels under `4.03.01`. -/
def dfIrregular : DataFrame :=
  { cols := standardCols
    rows :=
      [mkReg "4.03.01" "CPV" 3 "Macro" 500,
       mkReg "4.03.01.03" "CUSTO A" 4 "Macro" 200,
       mkReg "4.03.01.03.00001" "ITEM A1" 5 "Último Nível" 200,
       mkReg "4.03.01.04.00000" "ITEM B" 5 "Último Nível" 150,
       mkReg "4.03.01.09.00000" "ITEM C" 5 "Último Nível" 150] }

/-- Fixture: a balanced sheet with all check accounts present. -/
def dfBalanced : DataFrame :=
  { cols := standardCols
    rows :=
      [mkReg "1" "ATIVO" 1 "Macro" 1000,
       mkReg "1.01" "CIRCULANTE" 2 "Último Nível" 600,
       mkReg "1.02" "NAO CIRC" 2 "Último Nível" 400,
       mkReg "2" "PASSIVO" 1 "Macro" (-700),
       mkReg "2.01" "CIRCULANTE" 2 "Último Nível" (-200),
       mkReg "2.02" "NAO CIRC" 2 "Último Nível" (-100),
       mkReg "2.03" "PL" 2 "Último Nível" (-400),
       mkReg "3" "RECEITA" 1 "Último Nível" (-500),
       mkReg "4" "DESPESA" 1 "Último Nível" 200] }

/-- The parse result of the example file (the parse succeeds, see the
sanity checks below). -/
def exParsed : String × DataFrame := (parse_balancete exFile).toOption.get!

/-- The first row of the parsed example file. -/
def exReg0 : Registro := exParsed.2.rows.head!

/-- Fixture for C4: one data row whose column 0 is the empty string. -/
def emptyCol0File : XFile :=
  { mes_referencia := "2025-01"
    sheetRows :=
      [[some "", Option.none, some "", some "0,00", some "0,00", some "0,00",
        some "0,00"]] }

/-- Fixture for C6: a retained row whose account code starts with `9`. -/
def badGroupFile : XFile :=
  { mes_referencia := "2025-01"
    sheetRows := [exRow "9.01" "ESTRANHO" "0,00" "0,00" "0,00" "1,00D"] }

example : formatBrazilianSpec 1862365570 = "18.623.655,70" := by decide
example : formatBrazilianSpec 0 = "0,00" := by decide
example : formatBrazilianSpec 100050 = "1.000,50" := by decide

example : parse_brazilian_value (PValue.str "18.623.655,70D") =
    (186236557 / 10, "D") := by decide
example : parse_brazilian_value (PValue.str "0,00") = (0, "") := by decide
example : parse_brazilian_value (PValue.str "  1.000,50D  ") =
    (2001 / 2, "D") := by decide
example : parse_brazilian_value (PValue.str "abc") = (0, "") := by decide
example : apply_sign 1000 "D" 1 = Except.ok 1000 := by decide
example : apply_sign 1000 "C" 1 = Except.ok (-1000) := by decide
example : apply_sign 100 "" 9 = Except.ok 0 := by decide
example : apply_sign 100 "D" 9 =
    Except.error "Grupo contábil inválido. Esperado: 1, 2, 3 ou 4." := by
  decide

example : _determine_account_level "1.01.01.02.00004" = 5 := by decide
example : _determine_account_level "4.03.01.03" = 4 := by decide
example : _get_account_group "5.01" = Except.ok ("DESPESA", 4) := by decide
example : _get_account_group "9.01" =
    Except.error (ParseError.unknownAccountGroup "9.01") := by decide

example :
    (validate_hierarchy dfError).toOption.map (fun l => l.map Finding.status) =
      some [Status.ERROR] := by decide

example :
    (validate_hierarchy dfIrregular).toOption.map (fun l => l.map Finding.status) =
      some [Status.WARNING, Status.OK] := by decide

example :
    (validate_balance_sheet dfBalanced).toOption.map
      (fun r => (r.ativo_decomposicao, r.passivo_decomposicao, r.bp_equilibrio,
                 r.diferenca_bp, r.resultado_exercicio)) =
      some (true, true, true, 0, -300) := by decide

example :
    validate_balance_sheet { cols := ["foo"], rows := [] } =
      Except.error (ValidationError.missingColumns ["codigo_conta", "saldo_atual"]) := by
  decide

example : (parse_balancete exFile).isOk = true := by decide
example :
    ((parse_balancete exFile).toOption.map
      (fun p => p.2.rows.map (fun r => (r.codigo_conta, r.tipo, r.saldo_atual)))) =
    some [("1", "Macro", 1000), ("1.01", "Último Nível", 600),
          ("1.02", "Último Nível", 400)] := by decide

/-! ## Shared lemmas -/

theorem apply_sign_empty (v : ℚ) (g : ℤ) : apply_sign v "" g = Except.ok 0 := rfl

theorem apply_sign_D (v : ℚ) (g : ℤ) (hg : g = 1 ∨ g = 2 ∨ g = 3 ∨ g = 4) :
    apply_sign v "D" g = Except.ok |v| := by
  simp only [apply_sign]
  rw [if_neg (by decide : ¬("D" : String) = ""), if_pos hg,
    if_pos (by decide : pyStrip (pyUpper "D") = "D")]

theorem apply_sign_C (v : ℚ) (g : ℤ) (hg : g = 1 ∨ g = 2 ∨ g = 3 ∨ g = 4) :
    apply_sign v "C" g = Except.ok (-|v|) := by
  simp only [apply_sign]
  rw [if_neg (by decide : ¬("C" : String) = ""), if_pos hg,
    if_neg (by decide : ¬pyStrip (pyUpper "C") = "D"),
    if_pos (by decide : pyStrip (pyUpper "C") = "C")]

theorem apply_sign_ok_of_group (v : ℚ) (ind : String) (g : ℤ)
    (hg : g = 1 ∨ g = 2 ∨ g = 3 ∨ g = 4) :
    ∃ q, apply_sign v ind g = Except.ok q := by
  simp only [apply_sign]
  by_cases h0 : ind = ""
  · rw [if_pos h0]; exact ⟨0, rfl⟩
  · rw [if_neg h0, if_pos hg]
    split_ifs <;> exact ⟨_, rfl⟩

theorem _get_account_group_cons (codigo : String) (c : Char) (cs : List Char)
    (hd : codigo.data = c :: cs) :
    _get_account_group codigo =
      match _GROUP_MAP.find? (fun p => p.1 == c) with
      | some p => Except.ok p.2
      | Option.none => Except.error (ParseError.unknownAccountGroup codigo) := by
  unfold _get_account_group
  rw [hd]

theorem _get_account_group_ok_cases (codigo : String) (gr : String × ℤ)
    (h : _get_account_group codigo = Except.ok gr) :
    gr = ("ATIVO", 1) ∨ gr = ("PASSIVO", 2) ∨ gr = ("RECEITA", 3) ∨
      gr = ("DESPESA", 4) := by
  cases hd : codigo.data with
  | nil => rw [show _get_account_group codigo = Except.error ParseError.emptyCode
      from by unfold _get_account_group; rw [hd]] at h; cases h
  | cons c cs =>
    rw [_get_account_group_cons codigo c cs hd] at h
    cases hf : _GROUP_MAP.find? (fun p => p.1 == c) with
    | none =>
      rw [hf] at h
      cases h
    | some p =>
      rw [hf] at h
      have h' : Except.ok (ε := ParseError) p.2 = Except.ok gr := h
      injection h' with h2
      have hmem := List.mem_of_find?_eq_some hf
      subst h2
      simp only [_GROUP_MAP, List.mem_cons, List.not_mem_nil, or_false] at hmem
      rcases hmem with h' | h' | h' | h' | h' <;> subst h' <;> simp

theorem _get_account_group_num (codigo : String) (gr : String × ℤ)
    (h : _get_account_group codigo = Except.ok gr) :
    gr.2 = 1 ∨ gr.2 = 2 ∨ gr.2 = 3 ∨ gr.2 = 4 := by
  rcases _get_account_group_ok_cases codigo gr h with h' | h' | h' | h' <;>
    subst h' <;> simp

theorem _get_account_group_error_unknown (codigo : String) (e : ParseError)
    (hne : codigo ≠ "") (h : _get_account_group codigo = Except.error e) :
    e = ParseError.unknownAccountGroup codigo := by
  cases hd : codigo.data with
  | nil => exact absurd (String.ext (by rw [hd])) hne
  | cons c cs =>
    rw [_get_account_group_cons codigo c cs hd] at h
    cases hf : _GROUP_MAP.find? (fun p => p.1 == c) with
    | none =>
      rw [hf] at h
      have h' : Except.error (α := String × ℤ)
          (ParseError.unknownAccountGroup codigo) = Except.error e := h
      injection h' with h2
      exact h2.symm
    | some p => rw [hf] at h; cases h

theorem buildRecord_error_unknown (periodo : String) (row : SheetRow)
    (e : ParseError) (h : buildRecord periodo row = Except.error e) :
    ∃ cod, e = ParseError.unknownAccountGroup cod := by
  unfold buildRecord at h
  by_cases hc : pyStrip (strCellAt row 0 "") = ""
  · rw [if_pos hc] at h; cases h
  · rw [if_neg hc] at h
    cases hg : _get_account_group (pyStrip (strCellAt row 0 "")) with
    | error e2 =>
      rw [hg] at h
      simp only [bind, Except.bind] at h
      injection h with h2
      exact ⟨_, h2 ▸ _get_account_group_error_unknown _ e2 hc hg⟩
    | ok gr =>
      rw [hg] at h
      simp only [bind, Except.bind] at h
      obtain ⟨q1, hq1⟩ :=
        apply_sign_ok_of_group
          (parse_brazilian_value (PValue.str (strCellAt row 3 "0,00"))).1
          (parse_brazilian_value (PValue.str (strCellAt row 3 "0,00"))).2
          gr.2 (_get_account_group_num _ _ hg)
      obtain ⟨q2, hq2⟩ :=
        apply_sign_ok_of_group
          (parse_brazilian_value (PValue.str (strCellAt row 6 "0,00"))).1
          (parse_brazilian_value (PValue.str (strCellAt row 6 "0,00"))).2
          gr.2 (_get_account_group_num _ _ hg)
      rw [hq1, hq2] at h
      simp only [Except.mapError, bind, Except.bind] at h
      cases h

theorem buildRecords_error_unknown (periodo : String) (rows : List SheetRow)
    (e : ParseError) (h : buildRecords periodo rows = Except.error e) :
    ∃ cod, e = ParseError.unknownAccountGroup cod := by
  induction rows with
  | nil => simp [buildRecords] at h
  | cons row rest ih =>
    simp only [buildRecords] at h
    cases hb : buildRecord periodo row with
    | error e2 =>
      rw [hb] at h
      simp only [bind, Except.bind] at h
      injection h with h2
      exact h2 ▸ buildRecord_error_unknown periodo row e2 hb
    | ok r? =>
      rw [hb] at h
      simp only [bind, Except.bind] at h
      cases hrs : buildRecords periodo rest with
      | error e3 =>
        rw [hrs] at h
        simp only [bind, Except.bind] at h
        injection h with h2
        exact ih (h2 ▸ hrs)
      | ok rs =>
        rw [hrs] at h
        simp only [bind, Except.bind] at h
        cases r? <;> simp only [] at h <;> cases h

theorem buildRecord_ok_fields (periodo : String) (row : SheetRow) (r : Registro)
    (h : buildRecord periodo row = Except.ok (some r)) :
    r.codigo_conta ≠ "" ∧
    r.nivel = (_determine_account_level r.codigo_conta : ℤ) ∧
    _get_account_group r.codigo_conta = Except.ok (r.grupo, r.grupo_num) ∧
    0 ≤ r.debitos ∧ 0 ≤ r.creditos ∧ r.periodo = periodo ∧ r.tipo = "" := by
  unfold buildRecord at h
  by_cases hc : pyStrip (strCellAt row 0 "") = ""
  · rw [if_pos hc] at h; cases h
  · rw [if_neg hc] at h
    cases hg : _get_account_group (pyStrip (strCellAt row 0 "")) with
    | error e =>
      rw [hg] at h
      simp only [bind, Except.bind] at h
      cases h
    | ok gr =>
      rw [hg] at h
      simp only [bind, Except.bind] at h
      obtain ⟨q1, hq1⟩ :=
        apply_sign_ok_of_group
          (parse_brazilian_value (PValue.str (strCellAt row 3 "0,00"))).1
          (parse_brazilian_value (PValue.str (strCellAt row 3 "0,00"))).2
          gr.2 (_get_account_group_num _ _ hg)
      obtain ⟨q2, hq2⟩ :=
        apply_sign_ok_of_group
          (parse_brazilian_value (PValue.str (strCellAt row 6 "0,00"))).1
          (parse_brazilian_value (PValue.str (strCellAt row 6 "0,00"))).2
          gr.2 (_get_account_group_num _ _ hg)
      rw [hq1, hq2] at h
      simp only [Except.mapError, bind, Except.bind] at h
      have h' : Except.ok (ε := ParseError) (some
          { codigo_conta := pyStrip (strCellAt row 0 "")
            titulo_conta := pyStrip (strCellAt row 2 "")
            red := parseRed ((row.drop 1).headD Option.none)
            nivel := (_determine_account_level (pyStrip (strCellAt row 0 "")) : ℤ)
            tipo := ""
            grupo := gr.1
            grupo_num := gr.2
            saldo_anterior := q1
            debitos := |(parse_brazilian_value (PValue.str (strCellAt row 4 "0,00"))).1|
            creditos := |(parse_brazilian_value (PValue.str (strCellAt row 5 "0,00"))).1|
            saldo_atual := q2
            indicador_dc := (parse_brazilian_value (PValue.str (strCellAt row 6 "0,00"))).2
            periodo := periodo }) = Except.ok (some r) := h
      injection h' with h2
      injection h2 with h3
      subst h3
      refine ⟨hc, rfl, ?_, abs_nonneg _, abs_nonneg _, rfl, rfl⟩
      simpa using hg

theorem buildRecords_mem (periodo : String) :
    ∀ (rows : List SheetRow) (recs : List Registro),
      buildRecords periodo rows = Except.ok recs → ∀ r ∈ recs,
        ∃ row ∈ rows, buildRecord periodo row = Except.ok (some r)
  | [], recs, h, r, hr => by
    simp only [buildRecords] at h
    injection h with h2
    subst h2
    cases hr
  | row :: rest, recs, h, r, hr => by
    simp only [buildRecords] at h
    cases hb : buildRecord periodo row with
    | error e =>
      rw [hb] at h
      simp only [bind, Except.bind] at h
      cases h
    | ok r? =>
      rw [hb] at h
      simp only [bind, Except.bind] at h
      cases hrs : buildRecords periodo rest with
      | error e =>
        rw [hrs] at h
        simp only [bind, Except.bind] at h
        cases h
      | ok rs =>
        rw [hrs] at h
        simp only [bind, Except.bind] at h
        cases r? with
        | none =>
          have h' : Except.ok (ε := ParseError) rs = Except.ok recs := h
          injection h' with h2
          subst h2
          obtain ⟨row', hm, hb'⟩ := buildRecords_mem periodo rest rs hrs r hr
          exact ⟨row', List.mem_cons_of_mem _ hm, hb'⟩
        | some r0 =>
          have h' : Except.ok (ε := ParseError) (r0 :: rs) = Except.ok recs := h
          injection h' with h2
          subst h2
          rcases List.mem_cons.mp hr with h3 | h3
          · exact ⟨row, List.mem_cons_self _ _, h3 ▸ hb⟩
          · obtain ⟨row', hm, hb'⟩ := buildRecords_mem periodo rest rs hrs r h3
            exact ⟨row', List.mem_cons_of_mem _ hm, hb'⟩

theorem assignTipos_getElem? :
    ∀ (l : List Registro) (i : ℕ),
      (assignTipos l)[i]? = (l[i]?).map (fun r =>
        { r with tipo :=
            match l[i + 1]? with
            | some r2 => if r2.nivel > r.nivel then "Macro" else "Último Nível"
            | Option.none => "Último Nível" })
  | [], i => by simp [assignTipos]
  | [x], i => by
    cases i with
    | zero => simp [assignTipos]
    | succ j => simp [assignTipos]
  | x :: y :: rest, i => by
    cases i with
    | zero => simp [assignTipos]
    | succ j =>
      have ih := assignTipos_getElem? (y :: rest) j
      simpa [assignTipos] using ih

theorem assignTipos_mem :
    ∀ (l : List Registro) (r : Registro), r ∈ assignTipos l →
      ∃ r' t, r' ∈ l ∧ r = { r' with tipo := t } ∧
        (t = "Macro" ∨ t = "Último Nível")
  | [], r, h => by cases h
  | [x], r, h => by
    refine ⟨x, "Último Nível", List.mem_singleton_self x, ?_, Or.inr rfl⟩
    simpa [assignTipos] using h
  | x :: y :: rest, r, h => by
    rcases List.mem_cons.mp h with h' | h'
    · refine ⟨x, if y.nivel > x.nivel then "Macro" else "Último Nível",
        List.mem_cons_self _ _, h', ?_⟩
      by_cases hc : y.nivel > x.nivel <;> simp [hc]
    · obtain ⟨r', t, hm, he, ht⟩ := assignTipos_mem (y :: rest) r h'
      exact ⟨r', t, List.mem_cons_of_mem _ hm, he, ht⟩

theorem splitOnCharAux_length_pos (sep : Char) :
    ∀ (l acc : List Char), 1 ≤ (splitOnCharAux sep l acc).length
  | [], acc => by simp [splitOnCharAux]
  | c :: cs, acc => by
    simp only [splitOnCharAux]
    split
    · simp
    · exact splitOnCharAux_length_pos sep cs _

theorem _get_account_group_ok_char (codigo : String) (gr : String × ℤ)
    (h : _get_account_group codigo = Except.ok gr) :
    ∃ c cs, codigo.data = c :: cs ∧
      ((c = '1' ∧ gr = ("ATIVO", 1)) ∨ (c = '2' ∧ gr = ("PASSIVO", 2)) ∨
       (c = '3' ∧ gr = ("RECEITA", 3)) ∨
       ((c = '4' ∨ c = '5') ∧ gr = ("DESPESA", 4))) := by
  cases hd : codigo.data with
  | nil => rw [show _get_account_group codigo = Except.error ParseError.emptyCode
      from by unfold _get_account_group; rw [hd]] at h; cases h
  | cons c cs =>
    rw [_get_account_group_cons codigo c cs hd] at h
    cases hf : _GROUP_MAP.find? (fun p => p.1 == c) with
    | none => rw [hf] at h; cases h
    | some p =>
      rw [hf] at h
      have h' : Except.ok (ε := ParseError) p.2 = Except.ok gr := h
      injection h' with h2
      have hmem := List.mem_of_find?_eq_some hf
      have hkey := List.find?_some hf
      have hc : p.1 = c := by simpa using hkey
      subst h2
      subst hc
      simp only [_GROUP_MAP, List.mem_cons, List.not_mem_nil, or_false] at hmem
      refine ⟨p.1, cs, rfl, ?_⟩
      rcases hmem with h' | h' | h' | h' | h' <;> rw [h'] <;> simp

theorem buildRecord_bad_char (periodo : String) (row : SheetRow) (c : Char)
    (cs : List Char) (hd : (pyStrip (strCellAt row 0 "")).data = c :: cs)
    (h1 : c ≠ '1') (h2 : c ≠ '2') (h3 : c ≠ '3') (h4 : c ≠ '4')
    (h5 : c ≠ '5') :
    buildRecord periodo row =
      Except.error
        (ParseError.unknownAccountGroup (pyStrip (strCellAt row 0 ""))) := by
  have hne : pyStrip (strCellAt row 0 "") ≠ "" := by
    intro he
    rw [he] at hd
    cases hd
  have hfind : _GROUP_MAP.find? (fun p => p.1 == c) = Option.none := by
    rw [List.find?_eq_none]
    intro x hx
    simp only [_GROUP_MAP, List.mem_cons, List.not_mem_nil, or_false] at hx
    intro hcc
    simp only [beq_iff_eq] at hcc
    rcases hx with h' | h' | h' | h' | h'
    · subst h'; exact h1 hcc.symm
    · subst h'; exact h2 hcc.symm
    · subst h'; exact h3 hcc.symm
    · subst h'; exact h4 hcc.symm
    · subst h'; exact h5 hcc.symm
  have hgrp : _get_account_group (pyStrip (strCellAt row 0 "")) =
      Except.error
        (ParseError.unknownAccountGroup (pyStrip (strCellAt row 0 ""))) := by
    rw [_get_account_group_cons _ c cs hd, hfind]
  unfold buildRecord
  rw [if_neg hne, hgrp]
  rfl

theorem buildRecords_bad_row (periodo : String) :
    ∀ rows : List SheetRow,
      (∃ row ∈ rows, ∃ c cs, (pyStrip (strCellAt row 0 "")).data = c :: cs ∧
        c ≠ '1' ∧ c ≠ '2' ∧ c ≠ '3' ∧ c ≠ '4' ∧ c ≠ '5') →
      ∃ cod, buildRecords periodo rows =
        Except.error (ParseError.unknownAccountGroup cod)
  | [], h => by
    obtain ⟨row, hm, -⟩ := h
    cases hm
  | row0 :: rest, h => by
    obtain ⟨row, hm, c, cs, hd, h1, h2, h3, h4, h5⟩ := h
    rcases List.mem_cons.mp hm with he | hmr
    · subst he
      refine ⟨pyStrip (strCellAt row 0 ""), ?_⟩
      simp only [buildRecords]
      rw [buildRecord_bad_char periodo row c cs hd h1 h2 h3 h4 h5]
      rfl
    · cases hb : buildRecord periodo row0 with
      | error e =>
        obtain ⟨cod, hcod⟩ := buildRecord_error_unknown periodo row0 e hb
        refine ⟨cod, ?_⟩
        simp only [buildRecords]
        rw [hb, hcod]
        rfl
      | ok r? =>
        obtain ⟨cod, hcod⟩ := buildRecords_bad_row periodo rest
          ⟨row, hmr, c, cs, hd, h1, h2, h3, h4, h5⟩
        refine ⟨cod, ?_⟩
        simp only [buildRecords]
        rw [hb, hcod]
        simp only [bind, Except.bind]

theorem parse_balancete_ok_struct (f : XFile) (p : String) (df : DataFrame)
    (h : parse_balancete f = Except.ok (p, df)) :
    p = f.mes_referencia ∧
    ∃ recs, buildRecords f.mes_referencia (_read_data_rows f) = Except.ok recs ∧
      df = mkDataFrame (assignTipos recs) := by
  unfold parse_balancete at h
  by_cases hr : (_read_data_rows f).isEmpty = true
  · rw [if_pos hr] at h; cases h
  · rw [if_neg hr] at h
    cases hb : buildRecords f.mes_referencia (_read_data_rows f) with
    | error e => rw [hb] at h; cases h
    | ok recs =>
      rw [hb] at h
      injection h with h2
      have h3 := Prod.mk.injEq .. ▸ h2
      obtain ⟨h4, h5⟩ := Prod.mk.inj h2
      exact ⟨h4.symm, recs, rfl, h5.symm⟩

/-! ### Lemmas for the round-trip claim -/

theorem valLE_natDigitsLE :
    ∀ fuel n : ℕ, n ≤ fuel → valLE (natDigitsLE fuel n) = n
  | 0, 0, _ => rfl
  | 0, n + 1, h => absurd h (by omega)
  | fuel + 1, 0, _ => rfl
  | fuel + 1, n + 1, h => by
    have h2 : (n + 1) / 10 < n + 1 := Nat.div_lt_self (Nat.succ_pos n) (by omega)
    have hle : (n + 1) / 10 ≤ fuel := by omega
    simp only [natDigitsLE, valLE]
    rw [valLE_natDigitsLE fuel ((n + 1) / 10) hle]
    omega

theorem natDigitsLE_lt_ten :
    ∀ fuel n : ℕ, ∀ d ∈ natDigitsLE fuel n, d < 10
  | 0, _, d, h => by cases h
  | fuel + 1, 0, d, h => by cases h
  | fuel + 1, n + 1, d, h => by
    simp only [natDigitsLE, List.mem_cons] at h
    rcases h with h | h
    · subst h
      exact Nat.mod_lt _ (by omega)
    · exact natDigitsLE_lt_ten fuel ((n + 1) / 10) d h

theorem digitChar_props (d : ℕ) (h : d < 10) :
    (digitChar d).isDigit = true ∧ digitChar d ≠ '.' ∧ digitChar d ≠ ',' ∧
    digitChar d ≠ '-' ∧ isPySpace (digitChar d) = false ∧
    Char.toUpper (digitChar d) ≠ 'D' ∧ Char.toUpper (digitChar d) ≠ 'C' ∧
    digitVal (digitChar d) = d := by
  interval_cases d <;> exact (by decide)

theorem natToDecChars_form (n : ℕ) :
    ∀ c ∈ natToDecChars n, ∃ d, d < 10 ∧ c = digitChar d := by
  intro c hc
  unfold natToDecChars at hc
  by_cases h : n = 0
  · rw [if_pos h] at hc
    simp only [List.mem_singleton] at hc
    exact ⟨0, by omega, hc⟩
  · rw [if_neg h] at hc
    rw [List.mem_reverse, List.mem_map] at hc
    obtain ⟨d, hd, hmap⟩ := hc
    exact ⟨d, natDigitsLE_lt_ten n n d hd, hmap.symm⟩

theorem natToDecChars_ne_nil (n : ℕ) : natToDecChars n ≠ [] := by
  unfold natToDecChars
  by_cases h : n = 0
  · rw [if_pos h]
    simp
  · rw [if_neg h]
    obtain ⟨m, hm⟩ := Nat.exists_eq_succ_of_ne_zero h
    subst hm
    simp [natDigitsLE]

theorem group3LE_mem :
    ∀ (l : List Char) (c : Char), c ∈ group3LE l → c ∈ l ∨ c = '.'
  | [], c, h => by cases h
  | [a], c, h => Or.inl h
  | [a, b], c, h => Or.inl h
  | [a, b, cc], c, h => Or.inl h
  | a :: b :: cc :: d :: rest, c, h => by
    simp only [group3LE, List.mem_cons] at h
    rcases h with h | h | h | h | h
    · exact Or.inl (by simp [h])
    · exact Or.inl (by simp [h])
    · exact Or.inl (by simp [h])
    · exact Or.inr h
    · rcases group3LE_mem (d :: rest) c h with h' | h'
      · exact Or.inl (by simp [List.mem_cons.mp h'])
      · exact Or.inr h'

theorem group3LE_filter_dot :
    ∀ l : List Char,
      (group3LE l).filter (fun c => !(c == '.')) =
        l.filter (fun c => !(c == '.'))
  | [] => rfl
  | [a] => rfl
  | [a, b] => rfl
  | [a, b, c] => rfl
  | a :: b :: c :: d :: rest => by
    simp only [group3LE, List.filter_cons]
    rw [group3LE_filter_dot (d :: rest)]
    split_ifs <;> simp_all [List.filter_cons]

theorem dropWhile_none (p : Char → Bool) :
    ∀ l : List Char, (∀ c ∈ l, p c = false) → l.dropWhile p = l
  | [], _ => rfl
  | a :: l, h => by
    simp [List.dropWhile_cons, h a (List.mem_cons_self _ _)]

theorem pyStripList_eq_self (l : List Char)
    (h : ∀ c ∈ l, isPySpace c = false) : pyStripList l = l := by
  unfold pyStripList
  rw [dropWhile_none isPySpace l h, dropWhile_none isPySpace l.reverse
    (fun c hc => h c (List.mem_reverse.mp hc)), List.reverse_reverse]

theorem splitOnCharAux_no_sep (sep : Char) :
    ∀ (b acc : List Char), (∀ c ∈ b, c ≠ sep) →
      splitOnCharAux sep b acc = [acc.reverse ++ b]
  | [], acc, _ => by simp [splitOnCharAux]
  | c :: cs, acc, h => by
    simp only [splitOnCharAux]
    rw [if_neg (by simpa using h c (List.mem_cons_self _ _))]
    rw [splitOnCharAux_no_sep sep cs (c :: acc)
      (fun x hx => h x (List.mem_cons_of_mem _ hx))]
    simp

theorem splitOnCharAux_sep_split (sep : Char) :
    ∀ (a acc b : List Char), (∀ c ∈ a, c ≠ sep) →
      splitOnCharAux sep (a ++ sep :: b) acc =
        (acc.reverse ++ a) :: splitOnCharAux sep b []
  | [], acc, b, _ => by simp [splitOnCharAux]
  | c :: cs, acc, b, h => by
    rw [List.cons_append]
    simp only [splitOnCharAux]
    rw [if_neg (by simpa using h c (List.mem_cons_self _ _))]
    rw [splitOnCharAux_sep_split sep cs (c :: acc) b
      (fun x hx => h x (List.mem_cons_of_mem _ hx))]
    simp

theorem splitOnChar_single_sep (sep : Char) (a b : List Char)
    (ha : ∀ c ∈ a, c ≠ sep) (hb : ∀ c ∈ b, c ≠ sep) :
    splitOnChar sep (a ++ sep :: b) = [a, b] := by
  unfold splitOnChar
  rw [splitOnCharAux_sep_split sep a [] b ha, splitOnCharAux_no_sep sep b [] hb]
  simp

theorem digitsValBE_append (l : List Char) (c : Char) :
    digitsValBE (l ++ [c]) = 10 * digitsValBE l + digitVal c := by
  simp [digitsValBE, List.foldl_append]

theorem digitsValBE_rev_map (dl : List ℕ) (h : ∀ d ∈ dl, d < 10) :
    digitsValBE ((dl.map digitChar).reverse) = valLE dl := by
  induction dl with
  | nil => rfl
  | cons d ds ih =>
    simp only [List.map_cons, List.reverse_cons, valLE]
    rw [digitsValBE_append, ih (fun x hx => h x (List.mem_cons_of_mem _ hx))]
    have hd := (digitChar_props d (h d (List.mem_cons_self _ _))).2.2.2.2.2.2.2
    omega

theorem digitsValBE_natToDecChars (n : ℕ) :
    digitsValBE (natToDecChars n) = n := by
  unfold natToDecChars
  by_cases h : n = 0
  · rw [if_pos h, h]
    rfl
  · rw [if_neg h, digitsValBE_rev_map _ (natDigitsLE_lt_ten n n)]
    exact valLE_natDigitsLE n n (Nat.le_refl n)

theorem format_char_form (cents : ℕ) :
    ∀ c ∈ (formatBrazilianSpec cents).data,
      (∃ d, d < 10 ∧ c = digitChar d) ∨ c = '.' ∨ c = ',' := by
  intro c hc
  have hc' : c ∈ (group3LE (natToDecChars (cents / 100)).reverse).reverse ++
      [','] ++ [digitChar (cents % 100 / 10), digitChar (cents % 100 % 10)] := hc
  rcases List.mem_append.mp hc' with hc2 | hc2
  · rcases List.mem_append.mp hc2 with hc3 | hc3
    · rw [List.mem_reverse] at hc3
      rcases group3LE_mem _ c hc3 with h | h
      · rw [List.mem_reverse] at h
        exact Or.inl (natToDecChars_form _ c h)
      · exact Or.inr (Or.inl h)
    · simp only [List.mem_singleton] at hc3
      exact Or.inr (Or.inr hc3)
  · simp only [List.mem_cons, List.not_mem_nil, or_false] at hc2
    rcases hc2 with h | h
    · exact Or.inl ⟨cents % 100 / 10, by omega, h⟩
    · exact Or.inl ⟨cents % 100 % 10, by omega, h⟩

theorem format_no_space (cents : ℕ) :
    ∀ c ∈ (formatBrazilianSpec cents).data, isPySpace c = false := by
  intro c hc
  rcases format_char_form cents c hc with ⟨d, hd, rfl⟩ | rfl | rfl
  · exact (digitChar_props d hd).2.2.2.2.1
  · decide
  · decide

theorem removeDots_format (cents : ℕ) :
    removeDotsCommaChain ((formatBrazilianSpec cents).data) =
      natToDecChars (cents / 100) ++
        '.' :: [digitChar (cents % 100 / 10), digitChar (cents % 100 % 10)] := by
  have hdecform := natToDecChars_form (cents / 100)
  have hfrac1 : cents % 100 / 10 < 10 := by omega
  have hfrac2 : cents % 100 % 10 < 10 := by omega
  show removeDotsCommaChain
      ((group3LE (natToDecChars (cents / 100)).reverse).reverse ++ [','] ++
        [digitChar (cents % 100 / 10), digitChar (cents % 100 % 10)]) = _
  unfold removeDotsCommaChain
  rw [List.filter_append, List.filter_append]
  have hip_f : (group3LE (natToDecChars (cents / 100)).reverse).reverse.filter
      (fun c => !(c == '.')) = natToDecChars (cents / 100) := by
    rw [List.filter_reverse, group3LE_filter_dot, List.filter_reverse,
      List.reverse_reverse]
    refine List.filter_eq_self.mpr ?_
    intro c hc
    obtain ⟨d, hd, rfl⟩ := hdecform c hc
    simpa using (digitChar_props d hd).2.1
  have hfrac_f : ([digitChar (cents % 100 / 10), digitChar (cents % 100 % 10)]
        : List Char).filter (fun c => !(c == '.')) =
      [digitChar (cents % 100 / 10), digitChar (cents % 100 % 10)] := by
    refine List.filter_eq_self.mpr ?_
    intro c hc
    simp only [List.mem_cons, List.not_mem_nil, or_false] at hc
    rcases hc with rfl | rfl
    · simpa using (digitChar_props _ hfrac1).2.1
    · simpa using (digitChar_props _ hfrac2).2.1
  rw [hip_f, hfrac_f]
  rw [show (([','] : List Char).filter (fun c => !(c == '.'))) = [','] from rfl]
  rw [List.map_append, List.map_append]
  have hdec_m : (natToDecChars (cents / 100)).map
      (fun c => if c == ',' then '.' else c) = natToDecChars (cents / 100) := by
    rw [List.map_congr_left (g := id), List.map_id]
    intro c hc
    obtain ⟨d, hd, rfl⟩ := hdecform c hc
    simp only [id]
    rw [if_neg (by simpa using (digitChar_props d hd).2.2.1)]
  have hfrac_m : ([digitChar (cents % 100 / 10), digitChar (cents % 100 % 10)]
        : List Char).map (fun c => if c == ',' then '.' else c) =
      [digitChar (cents % 100 / 10), digitChar (cents % 100 % 10)] := by
    rw [List.map_congr_left (g := id), List.map_id]
    intro c hc
    simp only [List.mem_cons, List.not_mem_nil, or_false] at hc
    simp only [id]
    rcases hc with rfl | rfl
    · rw [if_neg (by simpa using (digitChar_props _ hfrac1).2.2.1)]
    · rw [if_neg (by simpa using (digitChar_props _ hfrac2).2.2.1)]
  rw [hdec_m, hfrac_m]
  rw [show (([','] : List Char).map (fun c => if c == ',' then '.' else c)) =
    ['.'] from rfl]
  rw [List.append_assoc]
  refine List.filter_eq_self.mpr ?_
  intro c hc
  rcases List.mem_append.mp hc with hc2 | hc2
  · obtain ⟨d, hd, rfl⟩ := hdecform c hc2
    simp [(digitChar_props d hd).1]
  · simp only [List.cons_append, List.nil_append, List.mem_cons,
      List.not_mem_nil, or_false] at hc2
    rcases hc2 with rfl | rfl | rfl
    · decide
    · simp [(digitChar_props _ hfrac1).1]
    · simp [(digitChar_props _ hfrac2).1]

theorem pyFloatBody_eq_pair (l a b : List Char)
    (h : splitOnChar '.' l = [a, b]) :
    pyFloatBody l =
      if (a ++ b) ≠ [] ∧ (a ++ b).all Char.isDigit then
        some ((digitsValBE a : ℚ) + (digitsValBE b : ℚ) / (10 : ℚ) ^ b.length)
      else Option.none := by
  unfold pyFloatBody
  rw [h]

theorem pyFloat_decimal (cents : ℕ) :
    pyFloatOfChars (natToDecChars (cents / 100) ++
      '.' :: [digitChar (cents % 100 / 10), digitChar (cents % 100 % 10)]) =
      some ((cents : ℚ) / 100) := by
  have hdecform := natToDecChars_form (cents / 100)
  have hfrac1 : cents % 100 / 10 < 10 := by omega
  have hfrac2 : cents % 100 % 10 < 10 := by omega
  obtain ⟨c0, dec', hdec⟩ :=
    List.exists_cons_of_ne_nil (natToDecChars_ne_nil (cents / 100))
  obtain ⟨d0, hd0, hc0⟩ := hdecform c0 (by rw [hdec]; exact List.mem_cons_self _ _)
  have hhead : ¬(((natToDecChars (cents / 100) ++
      '.' :: [digitChar (cents % 100 / 10),
        digitChar (cents % 100 % 10)]).head? == some '-') = true) := by
    rw [hdec, List.cons_append, List.head?_cons]
    intro hbeq
    have h2 : c0 = '-' := by simpa using hbeq
    rw [hc0] at h2
    exact (digitChar_props d0 hd0).2.2.2.1 h2
  unfold pyFloatOfChars
  rw [if_neg hhead]
  have hsplit : splitOnChar '.' (natToDecChars (cents / 100) ++
      '.' :: [digitChar (cents % 100 / 10), digitChar (cents % 100 % 10)]) =
      [natToDecChars (cents / 100),
       [digitChar (cents % 100 / 10), digitChar (cents % 100 % 10)]] := by
    refine splitOnChar_single_sep '.' _ _ ?_ ?_
    · intro c hc
      obtain ⟨d, hd, rfl⟩ := hdecform c hc
      exact (digitChar_props d hd).2.1
    · intro c hc
      simp only [List.mem_cons, List.not_mem_nil, or_false] at hc
      rcases hc with rfl | rfl
      · exact (digitChar_props _ hfrac1).2.1
      · exact (digitChar_props _ hfrac2).2.1
  rw [pyFloatBody_eq_pair _ _ _ hsplit]
  have hcond : (natToDecChars (cents / 100) ++
      [digitChar (cents % 100 / 10), digitChar (cents % 100 % 10)]) ≠ [] ∧
      ((natToDecChars (cents / 100) ++
        [digitChar (cents % 100 / 10),
          digitChar (cents % 100 % 10)]).all Char.isDigit) = true := by
    constructor
    · intro he
      rw [List.append_eq_nil] at he
      exact natToDecChars_ne_nil _ he.1
    · rw [List.all_eq_true]
      intro c hc
      rcases List.mem_append.mp hc with hc2 | hc2
      · obtain ⟨d, hd, rfl⟩ := hdecform c hc2
        exact (digitChar_props d hd).1
      · simp only [List.mem_cons, List.not_mem_nil, or_false] at hc2
        rcases hc2 with rfl | rfl
        · exact (digitChar_props _ hfrac1).1
        · exact (digitChar_props _ hfrac2).1
  rw [if_pos hcond]
  have hv1 : digitsValBE (natToDecChars (cents / 100)) = cents / 100 :=
    digitsValBE_natToDecChars _
  have hv2 : digitsValBE [digitChar (cents % 100 / 10),
      digitChar (cents % 100 % 10)] = cents % 100 := by
    show 10 * (10 * 0 + digitVal (digitChar (cents % 100 / 10))) +
      digitVal (digitChar (cents % 100 % 10)) = cents % 100
    rw [(digitChar_props _ hfrac1).2.2.2.2.2.2.2,
      (digitChar_props _ hfrac2).2.2.2.2.2.2.2]
    omega
  rw [hv1, hv2]
  have hcast : (cents : ℚ) = 100 * ((cents / 100 : ℕ) : ℚ) +
      ((cents % 100 : ℕ) : ℚ) := by
    exact_mod_cast (Nat.div_add_mod cents 100).symm
  congr 1
  rw [show (([digitChar (cents % 100 / 10), digitChar (cents % 100 % 10)]
    : List Char).length) = 2 from rfl]
  rw [hcast]
  ring

/-! ## Claims -/

/-- C3, counterexample: with the empty indicator the out-of-range group 9
does not raise — `apply_sign(100.0, "", 9)` returns `0.0`, because the
empty-indicator early return precedes the group check. -/
theorem C3_counterexample_empty_indicator_no_raise :
    apply_sign 100 "" 9 = Except.ok 0 := by decide

/-- C3, amended: for every magnitude and every indicator in {"D", "C"}
(the nonempty indicators of the claim's set), `apply_sign` with a group
outside {1, 2, 3, 4} raises the InvalidGroup `ValueError`. -/
theorem C3_apply_sign_invalid_group_raises (v : ℚ) (ind : String) (g : ℤ)
    (hind : ind = "D" ∨ ind = "C")
    (hg : ¬(g = 1 ∨ g = 2 ∨ g = 3 ∨ g = 4)) :
    apply_sign v ind g =
      Except.error "Grupo contábil inválido. Esperado: 1, 2, 3 ou 4." := by
  rcases hind with h | h <;> subst h <;>
    · simp only [apply_sign]
      rw [if_neg (by decide), if_neg hg]

/-- C3, witness: the spec's own example `applySign(100.0, "D", 9)`. -/
theorem C3_apply_sign_invalid_group_raises_witness :
    apply_sign 100 "D" 9 =
      Except.error "Grupo contábil inválido. Esperado: 1, 2, 3 ou 4." :=
  C3_apply_sign_invalid_group_raises 100 "D" 9 (Or.inl rfl) (by decide)

/-- C1: `validate_hierarchy` returns one finding per Macro row, in ledger
row order; a Macro row's status is OK exactly when the direct-children gap
is within 0.02; when the gap exceeds 0.02 and some row under the parent's
prefix has level strictly greater than parent level + 1 the status is
WARNING — with the leaf-sum-reconciles message exactly when the Leaf-typed
rows under the prefix sum to within 0.02 of the parent, and the
both-sums-reporting message otherwise — and never ERROR; ERROR holds
exactly when the gap exceeds 0.02 and no deeper row exists under the
prefix. -/
theorem C1_validate_hierarchy_findings (df : DataFrame)
    (hcols : ∀ c ∈ hierarchyRequiredCols, c ∈ df.cols) :
    validate_hierarchy df =
      Except.ok ((df.rows.filter (fun r => r.tipo == "Macro")).map
        (macroFinding df)) ∧
    ∀ row ∈ df.rows, row.tipo = "Macro" →
      (((macroFinding df row).status = Status.OK ↔
        |row.saldo_atual -
          ((df.rows.filter (fun r =>
            pyStartswith (row.codigo_conta ++ ".") r.codigo_conta &&
              r.nivel == row.nivel + 1)).map (fun r => r.saldo_atual)).sum| ≤
          2 / 100) ∧
       (2 / 100 < |row.saldo_atual -
          ((df.rows.filter (fun r =>
            pyStartswith (row.codigo_conta ++ ".") r.codigo_conta &&
              r.nivel == row.nivel + 1)).map (fun r => r.saldo_atual)).sum| →
        (∃ r ∈ df.rows,
          pyStartswith (row.codigo_conta ++ ".") r.codigo_conta = true ∧
            r.nivel > row.nivel + 1) →
        (macroFinding df row).status = Status.WARNING ∧
        ((∃ a b, (macroFinding df row).mensagem =
            some (Mensagem.hierarquiaIrregularBate a b)) ↔
          |row.saldo_atual -
            ((df.rows.filter (fun r =>
              pyStartswith (row.codigo_conta ++ ".") r.codigo_conta &&
                r.tipo == "Último Nível")).map (fun r => r.saldo_atual)).sum| ≤
            2 / 100)) ∧
       ((macroFinding df row).status = Status.ERROR ↔
        (2 / 100 < |row.saldo_atual -
          ((df.rows.filter (fun r =>
            pyStartswith (row.codigo_conta ++ ".") r.codigo_conta &&
              r.nivel == row.nivel + 1)).map (fun r => r.saldo_atual)).sum| ∧
         ¬∃ r ∈ df.rows,
           pyStartswith (row.codigo_conta ++ ".") r.codigo_conta = true ∧
             r.nivel > row.nivel + 1))) := by
  constructor
  · have h1 := hcols "codigo_conta" (by simp [hierarchyRequiredCols])
    have h2 := hcols "titulo_conta" (by simp [hierarchyRequiredCols])
    have h3 := hcols "nivel" (by simp [hierarchyRequiredCols])
    have h4 := hcols "tipo" (by simp [hierarchyRequiredCols])
    have h5 := hcols "saldo_atual" (by simp [hierarchyRequiredCols])
    simp only [validate_hierarchy, _validate_required_columns]
    simp [hierarchyRequiredCols, List.filter, List.contains_eq_any_beq,
      List.elem_eq_mem, h1, h2, h3, h4, h5]
  · intro row hmem htipo
    have hbridge :
        (∃ r ∈ df.rows,
          pyStartswith (row.codigo_conta ++ ".") r.codigo_conta = true ∧
            r.nivel > row.nivel + 1) ↔
        (!(df.rows.filter (fun r =>
          pyStartswith (row.codigo_conta ++ ".") r.codigo_conta &&
            decide (r.nivel > row.nivel + 1))).isEmpty) = true := by
      constructor
      · rintro ⟨r, hrm, hps, hlvl⟩
        have hmf : r ∈ df.rows.filter (fun r =>
            pyStartswith (row.codigo_conta ++ ".") r.codigo_conta &&
              decide (r.nivel > row.nivel + 1)) :=
          List.mem_filter.mpr ⟨hrm, by simp [hps, hlvl]⟩
        by_contra hb
        rw [Bool.not_eq_true, Bool.not_eq_false', List.isEmpty_iff] at hb
        rw [hb] at hmf
        cases hmf
      · intro hb
        have hne : df.rows.filter (fun r =>
            pyStartswith (row.codigo_conta ++ ".") r.codigo_conta &&
              decide (r.nivel > row.nivel + 1)) ≠ [] := by
          intro he
          rw [he] at hb
          exact absurd hb (by decide)
        obtain ⟨r, hrm⟩ := List.exists_mem_of_ne_nil _ hne
        obtain ⟨hmem', hcond⟩ := List.mem_filter.mp hrm
        simp only [Bool.and_eq_true, decide_eq_true_eq] at hcond
        exact ⟨r, hmem', hcond.1, hcond.2⟩
    simp only [macroFinding, _TOLERANCE]
    split_ifs with hdiff hskip hleaf
    · refine ⟨by simpa using hdiff, ?_, ?_⟩
      · intro hgt
        exact absurd hdiff (not_le.mpr hgt)
      · constructor
        · intro hst
          exact absurd hst (by decide)
        · rintro ⟨hgt, -⟩
          exact absurd hdiff (not_le.mpr hgt)
    · refine ⟨?_, ?_, ?_⟩
      · constructor
        · intro hst
          exact absurd hst (by decide)
        · intro hle
          exact absurd hle hdiff
      · intro hgt hdeep
        exact ⟨rfl, by simpa using hleaf⟩
      · constructor
        · intro hst
          exact absurd hst (by decide)
        · rintro ⟨-, hnodeep⟩
          exact absurd (hbridge.mpr hskip) hnodeep
    · refine ⟨?_, ?_, ?_⟩
      · constructor
        · intro hst
          exact absurd hst (by decide)
        · intro hle
          exact absurd hle hdiff
      · intro hgt hdeep
        refine ⟨rfl, ?_⟩
        constructor
        · rintro ⟨a, b, hab⟩
          have hab' : some (Mensagem.hierarquiaIrregularNaoBate _ _ _ _) =
              some (Mensagem.hierarquiaIrregularBate a b) := hab
          injection hab' with hab2
          cases hab2
        · intro hle
          exact absurd hle hleaf
      · constructor
        · intro hst
          exact absurd hst (by decide)
        · rintro ⟨-, hnodeep⟩
          exact absurd (hbridge.mpr hskip) hnodeep
    · refine ⟨?_, ?_, ?_⟩
      · constructor
        · intro hst
          exact absurd hst (by decide)
        · intro hle
          exact absurd hle hdiff
      · intro hgt hdeep
        exact absurd (hbridge.mp hdeep) (by simpa using hskip)
      · refine ⟨fun _ => ⟨not_le.mp hdiff, ?_⟩, fun _ => rfl⟩
        intro hex
        exact absurd (hbridge.mp hex) (by simpa using hskip)

/-- C1, witness: the findings list of the 1000-vs-900 fixture, and its
parent row "1" classified ERROR (gap 100, no deeper descendants). -/
theorem C1_validate_hierarchy_findings_witness :
    validate_hierarchy dfError =
      Except.ok ((dfError.rows.filter (fun r => r.tipo == "Macro")).map
        (macroFinding dfError)) ∧
    (macroFinding dfError (mkReg "1" "ATIVO" 1 "Macro" 1000)).status =
      Status.ERROR :=
  have h := C1_validate_hierarchy_findings dfError (by decide)
  ⟨h.1,
   ((h.2 (mkReg "1" "ATIVO" 1 "Macro" 1000) (by decide) (by decide)).2.2).mpr
     (by decide)⟩

/-- C2: in the ledger produced by `parse_balancete`, a retained row is
Macro iff the immediately following retained row (in preserved input
order) has a strictly greater level; every row is Macro or "Último Nível";
and the final row is always "Último Nível". -/
theorem C2_node_type_lookahead (f : XFile) (p : String) (df : DataFrame)
    (h : parse_balancete f = Except.ok (p, df)) (i : ℕ) (r : Registro)
    (hr : df.rows[i]? = some r) :
    (r.tipo = "Macro" ↔
      ∃ r2, df.rows[i + 1]? = some r2 ∧ r2.nivel > r.nivel) ∧
    (r.tipo = "Macro" ∨ r.tipo = "Último Nível") ∧
    (i + 1 = df.rows.length → r.tipo = "Último Nível") := by
  obtain ⟨-, recs, -, hdf⟩ := parse_balancete_ok_struct f p df h
  subst hdf
  simp only [mkDataFrame] at hr ⊢
  rw [assignTipos_getElem?] at hr
  cases hi : recs[i]? with
  | none => rw [hi] at hr; cases hr
  | some r' =>
    rw [hi] at hr
    simp only [Option.map_some'] at hr
    injection hr with hr2
    subst hr2
    have hlen : (assignTipos recs).length = recs.length := by
      have h0 := assignTipos_getElem? recs recs.length
      rcases Nat.lt_trichotomy (assignTipos recs).length recs.length with hl | hl | hl
      · exfalso
        have h1 := assignTipos_getElem? recs (assignTipos recs).length
        rw [List.getElem?_eq_none (Nat.le_refl _)] at h1
        rw [List.getElem?_eq_getElem hl] at h1
        simp at h1
      · exact hl
      · exfalso
        rw [List.getElem?_eq_none (Nat.le_refl _), List.getElem?_eq_getElem hl] at h0
        simp at h0
    cases hj : recs[i + 1]? with
    | none =>
      refine ⟨?_, Or.inr rfl, fun _ => rfl⟩
      constructor
      · intro ht
        have ht' : ("Último Nível" : String) = "Macro" := ht
        exact absurd ht' (by decide)
      · rintro ⟨r2, h2, -⟩
        rw [assignTipos_getElem? recs (i + 1), hj] at h2
        cases h2
    | some r2' =>
      have hj2 : (assignTipos recs)[i + 1]? = some
          { r2' with tipo :=
              match recs[i + 1 + 1]? with
              | some r3 => if r3.nivel > r2'.nivel then "Macro" else "Último Nível"
              | Option.none => "Último Nível" } := by
        rw [assignTipos_getElem? recs (i + 1), hj]
        rfl
      have hlt : i + 1 < recs.length := by
        by_contra hge
        rw [List.getElem?_eq_none (Nat.le_of_not_lt hge)] at hj
        cases hj
      refine ⟨?_, ?_, ?_⟩
      · by_cases hc : r2'.nivel > r'.nivel
        · exact ⟨fun _ => ⟨_, hj2, hc⟩, fun _ => if_pos hc⟩
        · constructor
          · intro ht
            have ht' : (if r2'.nivel > r'.nivel then "Macro" else "Último Nível")
                = "Macro" := ht
            rw [if_neg hc] at ht'
            exact absurd ht' (by decide)
          · rintro ⟨r2, h2, hn⟩
            have h3 := hj2.symm.trans h2
            injection h3 with h4
            subst h4
            exact absurd hn hc
      · by_cases hc : r2'.nivel > r'.nivel
        · exact Or.inl (if_pos hc)
        · exact Or.inr (if_neg hc)
      · intro hlast
        rw [hlen] at hlast
        omega

/-- C10: every row of the DataFrame returned by `parse_balancete` has a
nonempty account code, a level equal to the number of dot-separated
segments of the code and at least 1, a group number in {1, 2, 3, 4}, a
node type in {Macro, Último Nível}, nonnegative debits and credits, and
the header's reference month as its period. -/
theorem C10_ledger_row_invariants (f : XFile) (p : String) (df : DataFrame)
    (h : parse_balancete f = Except.ok (p, df)) (r : Registro)
    (hr : r ∈ df.rows) :
    r.codigo_conta ≠ "" ∧
    r.nivel = ((splitOnChar '.' r.codigo_conta.data).length : ℤ) ∧
    1 ≤ r.nivel ∧
    (r.grupo_num = 1 ∨ r.grupo_num = 2 ∨ r.grupo_num = 3 ∨ r.grupo_num = 4) ∧
    (r.tipo = "Macro" ∨ r.tipo = "Último Nível") ∧
    0 ≤ r.debitos ∧ 0 ≤ r.creditos ∧ r.periodo = f.mes_referencia := by
  obtain ⟨-, recs, hb, hdf⟩ := parse_balancete_ok_struct f p df h
  subst hdf
  simp only [mkDataFrame] at hr
  obtain ⟨r', t, hm, he, ht⟩ := assignTipos_mem recs r hr
  obtain ⟨row, -, hrec⟩ := buildRecords_mem f.mes_referencia _ recs hb r' hm
  obtain ⟨hcod, hniv, hgrp, hdeb, hcred, hper, -⟩ :=
    buildRecord_ok_fields f.mes_referencia row r' hrec
  subst he
  refine ⟨hcod, ?_, ?_, ?_, ht, hdeb, hcred, hper⟩
  · rw [hniv]
    simp only [_determine_account_level, if_neg hcod]
  · rw [hniv]
    simp only [_determine_account_level, if_neg hcod]
    exact_mod_cast splitOnCharAux_length_pos '.' r'.codigo_conta.data []
  · have := _get_account_group_num _ _ hgrp
    simpa using this

/-- C2, witness: the first row of the parsed example file, account "1",
with its look-ahead characterization discharged at the parsed ledger. -/
theorem C2_node_type_lookahead_witness :
    (exReg0.tipo = "Macro" ↔
      ∃ r2, exParsed.2.rows[0 + 1]? = some r2 ∧ r2.nivel > exReg0.nivel) ∧
    (exReg0.tipo = "Macro" ∨ exReg0.tipo = "Último Nível") ∧
    (0 + 1 = exParsed.2.rows.length → exReg0.tipo = "Último Nível") :=
  C2_node_type_lookahead exFile exParsed.1 exParsed.2 (by decide) 0 exReg0
    (by decide)

/-- C10, witness: the row invariants discharged at the first parsed row of
the example file. -/
theorem C10_ledger_row_invariants_witness :
    exReg0.codigo_conta ≠ "" ∧
    exReg0.nivel = ((splitOnChar '.' exReg0.codigo_conta.data).length : ℤ) ∧
    1 ≤ exReg0.nivel ∧
    (exReg0.grupo_num = 1 ∨ exReg0.grupo_num = 2 ∨ exReg0.grupo_num = 3 ∨
      exReg0.grupo_num = 4) ∧
    (exReg0.tipo = "Macro" ∨ exReg0.tipo = "Último Nível") ∧
    0 ≤ exReg0.debitos ∧ 0 ≤ exReg0.creditos ∧
    exReg0.periodo = exFile.mes_referencia :=
  C10_ledger_row_invariants exFile exParsed.1 exParsed.2 (by decide) exReg0
    (by decide)

/-- C6: the group of every parsed row is the fixed map of the code's first
character (1 Asset, 2 Liability, 3 Revenue, 4 or 5 Expense, group number 4
for both); and whenever any retained data row's code starts with a
character outside {1,2,3,4,5}, the whole parse fails with
UnknownAccountGroup and no ledger is returned. -/
theorem C6_account_group_from_first_char (f : XFile) :
    (∀ p df, parse_balancete f = Except.ok (p, df) → ∀ r ∈ df.rows,
      ∃ c cs, r.codigo_conta.data = c :: cs ∧
        ((c = '1' ∧ r.grupo = "ATIVO" ∧ r.grupo_num = 1) ∨
         (c = '2' ∧ r.grupo = "PASSIVO" ∧ r.grupo_num = 2) ∨
         (c = '3' ∧ r.grupo = "RECEITA" ∧ r.grupo_num = 3) ∨
         ((c = '4' ∨ c = '5') ∧ r.grupo = "DESPESA" ∧ r.grupo_num = 4))) ∧
    ((∃ row ∈ _read_data_rows f, ∃ c cs,
        (pyStrip (strCellAt row 0 "")).data = c :: cs ∧
        c ≠ '1' ∧ c ≠ '2' ∧ c ≠ '3' ∧ c ≠ '4' ∧ c ≠ '5') →
      ∃ cod, parse_balancete f =
        Except.error (ParseError.unknownAccountGroup cod)) := by
  constructor
  · intro p df h r hr
    obtain ⟨-, recs, hb, hdf⟩ := parse_balancete_ok_struct f p df h
    subst hdf
    simp only [mkDataFrame] at hr
    obtain ⟨r', t, hm, he, -⟩ := assignTipos_mem recs r hr
    obtain ⟨row, -, hrec⟩ := buildRecords_mem f.mes_referencia _ recs hb r' hm
    obtain ⟨-, -, hgrp, -⟩ := buildRecord_ok_fields f.mes_referencia row r' hrec
    subst he
    obtain ⟨c, cs, hd, hcases⟩ := _get_account_group_ok_char r'.codigo_conta _ hgrp
    exact ⟨c, cs, hd, by simpa using hcases⟩
  · rintro ⟨row, hmem, c, cs, hd, h1, h2, h3, h4, h5⟩
    have hbad : ∃ cod, buildRecords f.mes_referencia (_read_data_rows f) =
        Except.error (ParseError.unknownAccountGroup cod) :=
      buildRecords_bad_row f.mes_referencia (_read_data_rows f)
        ⟨row, hmem, c, cs, hd, h1, h2, h3, h4, h5⟩
    obtain ⟨cod, hcod⟩ := hbad
    refine ⟨cod, ?_⟩
    unfold parse_balancete
    have hne : (_read_data_rows f).isEmpty ≠ true := by
      intro he
      rw [List.isEmpty_iff] at he
      rw [he] at hmem
      cases hmem
    rw [if_neg hne, hcod]

/-- C6, witness: the group map discharged at the parsed example row "1",
and the whole-parse failure discharged at a file holding code "9.01". -/
theorem C6_account_group_from_first_char_witness :
    (∃ c cs, exReg0.codigo_conta.data = c :: cs ∧
      ((c = '1' ∧ exReg0.grupo = "ATIVO" ∧ exReg0.grupo_num = 1) ∨
       (c = '2' ∧ exReg0.grupo = "PASSIVO" ∧ exReg0.grupo_num = 2) ∨
       (c = '3' ∧ exReg0.grupo = "RECEITA" ∧ exReg0.grupo_num = 3) ∨
       ((c = '4' ∨ c = '5') ∧ exReg0.grupo = "DESPESA" ∧
         exReg0.grupo_num = 4))) ∧
    (∃ cod, parse_balancete badGroupFile =
      Except.error (ParseError.unknownAccountGroup cod)) :=
  ⟨(C6_account_group_from_first_char exFile).1 exParsed.1 exParsed.2 (by decide)
      exReg0 (by decide),
   (C6_account_group_from_first_char badGroupFile).2
     ⟨exRow "9.01" "ESTRANHO" "0,00" "0,00" "0,00" "1,00D", by decide, '9',
      ['.', '0', '1'], by decide, by decide, by decide, by decide, by decide,
      by decide⟩⟩

/-- C4, counterexample: a file whose single data row has empty column 0
(no data rows remain after the skip) parses successfully into an empty
ledger instead of raising the EmptyLedger error — the zero-rows check runs
before the empty-column-0 skip, not after it. -/
theorem C4_counterexample_all_empty_col0_parses :
    parse_balancete emptyCol0File =
      Except.ok ("2025-01", { cols := [], rows := [] }) := by decide

/-- C4, amended: `parse_balancete` raises the zero-data-rows EmptyLedger
error exactly when no rows at all remain below the preamble before the
"total geral" sentinel; rows with empty column 0 are skipped only later in
step 3, so a file whose rows all have empty column 0 yields an empty
ledger, not an error. -/
theorem C4_empty_ledger_iff_no_raw_rows (f : XFile) :
    parse_balancete f = Except.error ParseError.emptyLedger ↔
      _read_data_rows f = [] := by
  unfold parse_balancete
  cases hr : _read_data_rows f with
  | nil => simp
  | cons r rs =>
    simp only [List.isEmpty_cons, Bool.false_eq_true, if_false, reduceCtorEq,
      iff_false]
    intro h
    cases hb : buildRecords f.mes_referencia (r :: rs) with
    | error e =>
      rw [hb] at h
      injection h with h2
      obtain ⟨cod, hcod⟩ := buildRecords_error_unknown _ _ _ hb
      rw [hcod] at h2
      cases h2
    | ok recs =>
      rw [hb] at h
      cases h

/-- C7: formatting any whole number of cents with Brazilian separators
(dot as thousands separator, comma as decimal separator) followed by an
indicator in {D, C} and then parsing returns exactly the magnitude and the
indicator — no tolerance is even needed on exact rationals. -/
theorem C7_parse_amount_round_trip (cents : ℕ) (ind : String)
    (h : ind = "D" ∨ ind = "C") :
    parse_brazilian_value (PValue.str (formatBrazilianSpec cents ++ ind)) =
      ((cents : ℚ) / 100, ind) := by
  have hic : ∃ ic, ind.data = [ic] ∧
      (((Char.toUpper ic == 'D') = true ∧ ind = "D") ∨
       ((Char.toUpper ic == 'D') = false ∧ (Char.toUpper ic == 'C') = true ∧
         ind = "C")) := by
    rcases h with rfl | rfl
    · exact ⟨'D', rfl, Or.inl ⟨by decide, rfl⟩⟩
    · exact ⟨'C', rfl, Or.inr ⟨by decide, by decide, rfl⟩⟩
  obtain ⟨ic, hicd, hcase⟩ := hic
  have hic2 : ic = 'D' ∨ ic = 'C' := by
    rcases hcase with ⟨-, rfl⟩ | ⟨-, -, rfl⟩
    · have h2 : (['D'] : List Char) = [ic] := hicd
      injection h2 with h3
      exact Or.inl h3.symm
    · have h2 : (['C'] : List Char) = [ic] := hicd
      injection h2 with h3
      exact Or.inr h3.symm
  have hns : ∀ c ∈ (formatBrazilianSpec cents).data ++ [ic],
      isPySpace c = false := by
    intro c hc
    rcases List.mem_append.mp hc with hc | hc
    · exact format_no_space cents c hc
    · simp only [List.mem_singleton] at hc
      subst hc
      rcases hic2 with rfl | rfl <;> decide
  simp only [parse_brazilian_value]
  rw [String.data_append, hicd, pyStripList_eq_self _ hns]
  have hne : ¬(((formatBrazilianSpec cents).data ++ [ic]).isEmpty = true) := by
    rw [List.isEmpty_iff]
    intro he
    rw [List.append_eq_nil] at he
    exact absurd he.2 (by simp)
  rw [if_neg hne]
  have hsi : stripIndicator ((formatBrazilianSpec cents).data ++ [ic]) =
      (ind, (formatBrazilianSpec cents).data) := by
    unfold stripIndicator
    rw [List.getLast?_concat, List.dropLast_concat]
    simp only [Option.map_some', Option.getD_some]
    rcases hcase with ⟨hD, rfl⟩ | ⟨hD, hC, rfl⟩
    · rw [if_pos hD, pyStripList_eq_self _ (format_no_space cents)]
    · rw [if_neg (by rw [hD]; exact Bool.false_ne_true), if_pos hC,
        pyStripList_eq_self _ (format_no_space cents)]
  simp only [hsi]
  rw [removeDots_format cents]
  have hne2 : ¬((natToDecChars (cents / 100) ++
      '.' :: [digitChar (cents % 100 / 10),
        digitChar (cents % 100 % 10)]).isEmpty = true) := by
    rw [List.isEmpty_iff]
    intro he
    rw [List.append_eq_nil] at he
    exact absurd he.2 (by simp)
  rw [if_neg hne2, pyFloat_decimal cents]

/-- C7, witness: the spec's own example — 1862365570 cents formats to
"18.623.655,70D", which parses back to (18623655.70, "D"). -/
theorem C7_parse_amount_round_trip_witness :
    formatBrazilianSpec 1862365570 ++ "D" = "18.623.655,70D" ∧
    parse_brazilian_value (PValue.str "18.623.655,70D") =
      ((1862365570 : ℚ) / 100, "D") :=
  ⟨by decide,
   by
    rw [show ("18.623.655,70D" : String) =
      formatBrazilianSpec 1862365570 ++ "D" from by decide]
    exact C7_parse_amount_round_trip 1862365570 "D" (Or.inl rfl)⟩

/-- C8: `parse_brazilian_value` never throws — it is total by construction,
`None`, `NaN` and the empty string yield `(0.0, "")`, numeric input
bypasses the string logic and is returned as-is with empty indicator, and
every string whose cleaned remainder is empty or unparsable yields
`(0.0, "")`. -/
theorem C8_parse_brazilian_value_never_throws :
    parse_brazilian_value PValue.pynone = (0, "") ∧
    parse_brazilian_value PValue.pynan = (0, "") ∧
    parse_brazilian_value (PValue.str "") = (0, "") ∧
    (∀ q : ℚ, parse_brazilian_value (PValue.num q) = (q, "")) ∧
    (∀ s : String,
      (removeDotsCommaChain (stripIndicator (pyStripList s.data)).2 = [] ∨
        pyFloatOfChars
          (removeDotsCommaChain (stripIndicator (pyStripList s.data)).2) =
          Option.none) →
      parse_brazilian_value (PValue.str s) = (0, "")) := by
  refine ⟨rfl, rfl, rfl, fun q => rfl, fun s h => ?_⟩
  simp only [parse_brazilian_value]
  by_cases hc : (pyStripList s.data).isEmpty = true
  · rw [if_pos hc]
  · rw [if_neg hc]
    rcases h with h | h
    · rw [h]
      simp
    · by_cases h2 :
        (removeDotsCommaChain (stripIndicator (pyStripList s.data)).2).isEmpty = true
      · rw [if_pos h2]
      · rw [if_neg h2, h]

/-- C8, witness: the malformed string "abc" has an empty cleaned remainder
and parses to `(0.0, "")` rather than raising. -/
theorem C8_parse_brazilian_value_never_throws_witness :
    parse_brazilian_value (PValue.str "abc") = (0, "") :=
  C8_parse_brazilian_value_never_throws.2.2.2.2 "abc" (Or.inl (by decide))

/-- C5: `validate_balance_sheet` looks the nine check accounts up by exact
code, treating a missing code as zero, reports the balance-sheet check as
`|b(1) + b(2) + (b(3) + b(4))| ≤ 0.02` and the two decomposition checks
with the same tolerance, and raises exactly when the ledger lacks one of
the required columns. -/
theorem C5_validate_balance_sheet_spec (df : DataFrame) :
    validate_balance_sheet df =
      (let b : String → ℚ := fun codigo =>
        match df.rows.find? (fun r => r.codigo_conta == codigo) with
        | some r => r.saldo_atual
        | Option.none => 0
      if "codigo_conta" ∈ df.cols ∧ "saldo_atual" ∈ df.cols then
        Except.ok
          { ativo_total := round2 (b "1")
            passivo_pl_total := round2 (b "2")
            diferenca_bp := round2 (b "1" + b "2" + (b "3" + b "4"))
            resultado_exercicio := round2 (b "3" + b "4")
            receita_total := round2 (b "3")
            despesa_total := round2 (b "4")
            ativo_decomposicao := decide (|b "1" - (b "1.01" + b "1.02")| ≤ 2 / 100)
            passivo_decomposicao :=
              decide (|b "2" - (b "2.01" + b "2.02" + b "2.03")| ≤ 2 / 100)
            bp_equilibrio := decide (|b "1" + b "2" + (b "3" + b "4")| ≤ 2 / 100) }
      else
        Except.error (ValidationError.missingColumns
          ((["codigo_conta", "saldo_atual"] : List String).filter
            (fun c => !(df.cols.contains c))))) := by
  simp only [validate_balance_sheet, _validate_required_columns, _get_saldo,
    _TOLERANCE]
  by_cases h1 : "codigo_conta" ∈ df.cols <;> by_cases h2 : "saldo_atual" ∈ df.cols <;>
    simp [List.filter, h1, h2, List.contains_eq_any_beq, List.elem_eq_mem]

/-- C9: for every magnitude `v ≥ 0` and every group in {1, 2, 3, 4},
`apply_sign` sends indicator "D" to `+v`, "C" to `-v` and "" to `0.0` —
uniformly across the four accounting groups. -/
theorem C9_apply_sign_uniform (v : ℚ) (g : ℤ) (hv : 0 ≤ v)
    (hg : g = 1 ∨ g = 2 ∨ g = 3 ∨ g = 4) :
    apply_sign v "D" g = Except.ok v ∧
    apply_sign v "C" g = Except.ok (-v) ∧
    apply_sign v "" g = Except.ok 0 := by
  rw [apply_sign_D v g hg, apply_sign_C v g hg, abs_of_nonneg hv]
  exact ⟨rfl, rfl, apply_sign_empty v g⟩

/-- C9, witness: the spec's examples at `v = 1000`, `g = 1`. -/
theorem C9_apply_sign_uniform_witness :
    apply_sign 1000 "D" 1 = Except.ok 1000 ∧
    apply_sign 1000 "C" 1 = Except.ok (-1000) ∧
    apply_sign 1000 "" 1 = Except.ok 0 :=
  C9_apply_sign_uniform 1000 1 (by decide) (Or.inl rfl)

end Balancete
